import Mathlib

/-!
Verification of the Krisinformation county crisis-alert sensor
(`homeassistant/components/krisinformation/sensor.py`, class
`CrisisAlerterSensorCounty`).

The module's observable logic is the `update` method: it fetches a list of
alerts, looks at the configured county, and assigns the sensor's fields
(`_state`, `_web`, `_published`, `_area`).  We embed the data the method
reads (alert records, the sensor's mutable fields) and the method itself as
a pure function from the fetch outcome and the prior field values to the
new field values together with an optional uncaught exception.
-/

set_option maxRecDepth 8192

namespace Krisinformation

/-- String literal `NO_ALARM_SV` of the module (sensor.py line 25). -/
def NO_ALARM_SV : String := "Inga larm"

/-- String literal `NO_ALARM_EN` of the module (sensor.py line 26). -/
def NO_ALARM_EN : String := "No alarms"

/-- One element of an alert's `Area` list: a record with a `Description`
string (the only key the sensor reads). -/
structure Area where
  description : String
deriving DecidableEq, Repr

/-- An alert record as returned by `crisis_alerter.vmas`: the sensor reads
the keys `PushMessage`, `Web`, `Published` and `Area`. -/
structure Alert where
  pushMessage : String
  web : String
  published : String
  area : List Area
deriving DecidableEq, Repr

/-- The mutable fields of `CrisisAlerterSensorCounty` assigned by `update`:
`_state`, `_web`, `_published`, `_area`.  All start as `None`
(`__init__`, sensor.py lines 147-150). -/
structure SensorState where
  state : Option String
  web : Option String
  published : Option String
  area : Option String
deriving DecidableEq, Repr

/-- The field values set by `__init__`: every field is `None`. -/
def initState : SensorState := ⟨none, none, none, none⟩

/-- Exceptions that the external client call (or the body of `update`) can
raise.  `moduleError` is the module's own `Error` class (sensor.py lines
29-30), the only class the `except` clause catches; `indexError` is
Python's `IndexError`; `otherError` stands for any other exception class
raised by the client. -/
inductive Exc where
  | moduleError (msg : String)
  | indexError
  | otherError (msg : String)
deriving DecidableEq, Repr

/-- The no-alarm string chosen by `update`:
`NO_ALARM_SV if self._crisis_alerter.language == "sv" else NO_ALARM_EN`. -/
def noAlarm (language : String) : String :=
  if language = "sv" then NO_ALARM_SV else NO_ALARM_EN

/-- Shallow embedding of `CrisisAlerterSensorCounty.update`
(sensor.py lines 184-215).

Inputs: `county` is `self._crisis_alerter.county`, `language` is
`self._crisis_alerter.language`, `fetch` is the outcome of
`self._crisis_alerter.vmas(is_test=True)` (a list of alerts, or a raised
exception), and `s` holds the prior values of the four fields.

Output: the field values after the call, paired with `some e` when an
exception `e` escapes `update` uncaught (the `except` clause catches only
the module's `Error` class).  Line by line:

* fetch raised the module's `Error` → `_state = "Unavailable"`, other
  fields untouched (lines 213-215);
* fetch raised anything else → it propagates, no field assigned;
* empty response → `_state` is the no-alarm string, other fields
  untouched (lines 207-212);
* non-empty response: `news = response[0]`; reading
  `news["Area"][0]["Description"]` raises `IndexError` (uncaught) when the
  area list is empty (line 191); otherwise, if that first description
  equals the configured county, the four fields are assigned from `news`
  (`_state` capped at 255 characters, `_area` set only when the area list
  has more than one element, lines 192-200); if it differs, `_state` is
  the no-alarm string and the other fields are untouched (lines 201-206).
  Entries after `response[0]` are never examined. -/
def update (county language : String) (fetch : Except Exc (List Alert))
    (s : SensorState) : SensorState × Option Exc :=
  match fetch with
  | .error (.moduleError _) => ({ s with state := some "Unavailable" }, none)
  | .error e => (s, some e)
  | .ok [] => ({ s with state := some (noAlarm language) }, none)
  | .ok (news :: _) =>
    match news.area with
    | [] => (s, some Exc.indexError)
    | a0 :: _ =>
      if a0.description = county then
        ({ s with
            state := some (news.pushMessage.take 255)
            web := some news.web
            published := some news.published
            area := if news.area.length > 1 then some a0.description else none },
         none)
      else
        ({ s with state := some (noAlarm language) }, none)

/-- The primary region of an alert: the `Description` of the first element
of its `Area` list, when that list is non-empty. -/
def primaryDesc (e : Alert) : Option String :=
  e.area.head?.map Area.description

/-- The first alert in the list whose primary region equals the configured
county (spec wording: scan entries in returned order, first match wins). -/
def firstMatch (county : String) (response : List Alert) : Option Alert :=
  response.find? (fun e => primaryDesc e == some county)

/-- The state the spec's selection step prescribes for a matched entry:
value, link, published and region all taken from the entry. -/
def specSelect (e : Alert) (s : SensorState) : SensorState :=
  { s with
      state := some (e.pushMessage.take 255)
      web := some e.web
      published := some e.published
      area := primaryDesc e }

/-- Claim C1 as stated: whenever some entry's primary region equals the
configured county, `update` selects the first such entry and sets all four
fields from it. -/
def ClaimC1 : Prop :=
  ∀ (county language : String) (s : SensorState) (response : List Alert)
    (m : Alert), firstMatch county response = some m →
    update county language (.ok response) s = (specSelect m s, none)

/-- C3 as stated: on a non-empty response with no matching primary region,
value becomes the no-alarm string and link, published and region are
cleared to None regardless of their prior values. -/
def ClaimC3 : Prop :=
  ∀ (county language : String) (s : SensorState) (response : List Alert),
    response ≠ [] → (∀ e ∈ response, primaryDesc e ≠ some county) →
    update county language (.ok response) s =
      ({ state := some (noAlarm language), web := none, published := none,
         area := none }, none)

/-- C4 as stated: on an empty response, value becomes the no-alarm string
and link, published and region are cleared to None. -/
def ClaimC4 : Prop :=
  ∀ (county language : String) (s : SensorState),
    update county language (.ok []) s =
      ({ state := some (noAlarm language), web := none, published := none,
         area := none }, none)

/-- C5 as stated: any error raised by the client call is caught, value
becomes "Unavailable" and the other fields keep their prior values. -/
def ClaimC5 : Prop :=
  ∀ (county language : String) (s : SensorState) (e : Exc),
    update county language (.error e) s =
      ({ s with state := some "Unavailable" }, none)

/-- Value-length invariant of the sensor: whenever the state field holds a
string, it is at most 255 characters long. -/
def valueInv (s : SensorState) : Prop :=
  ∀ v, s.state = some v → v.length ≤ 255

/- Concrete alert records used for tests, witnesses and counterexamples
(the scenario of the spec, §8). -/

/-- A test alert whose primary region is Stockholms län. -/
def alertStockholm : Alert :=
  ⟨"Annat VMA", "example.se", "2023-03-29T10:00:00+02:00",
   [⟨"Stockholms län"⟩]⟩

/-- The spec's scenario alert: primary region Värmlands län,
message "Test VMA 1". -/
def alertVarmland : Alert :=
  ⟨"Test VMA 1", "krisinformation.se", "2023-03-29T11:02:11+02:00",
   [⟨"Värmlands län"⟩]⟩

/-- The scenario alert with a second area element, so that the sensor's
area field is actually populated on a match (line 198 requires
`len(news["Area"]) > 1`). -/
def alertVarmlandTwoAreas : Alert :=
  ⟨"Test VMA 1", "krisinformation.se", "2023-03-29T11:02:11+02:00",
   [⟨"Värmlands län"⟩, ⟨"Örebro län"⟩]⟩

/-- An alert whose area list is empty (triggers the IndexError at
line 191). -/
def alertNoArea : Alert := ⟨"Broken", "w.se", "2023-01-01T00:00:00+01:00", []⟩

/-- A prior sensor state with every field populated, used to observe which
fields an update path leaves untouched. -/
def priorState : SensorState :=
  ⟨some "old value", some "old.se", some "2022-01-01T00:00:00+01:00",
   some "Gotlands län"⟩

/-- A 300-character message, longer than the 255-character cap. -/
def longMsg : String := ⟨List.replicate 300 'a'⟩

/-- An alert carrying the 300-character message, matching Kalmar län. -/
def alertLong : Alert :=
  ⟨longMsg, "long.se", "2023-05-01T00:00:00+02:00", [⟨"Kalmar län"⟩]⟩

/- Sanity checks of the embedding on concrete inputs. -/

example :
    update "Värmlands län" "sv" (.ok [alertStockholm, alertVarmland])
      initState =
    ({ initState with state := some "Inga larm" }, none) := by decide

example :
    update "Värmlands län" "sv" (.ok [alertVarmland]) initState =
    ({ state := some "Test VMA 1", web := some "krisinformation.se",
       published := some "2023-03-29T11:02:11+02:00", area := none },
     none) := by decide

/- General helper lemmas about the embedding. -/

/-- Taking `n` characters of a string yields exactly the first `n`
characters of its character list. -/
theorem take_toList (s : String) (n : Nat) :
    (s.take n).toList = s.toList.take n := by
  rw [String.take_eq]
  rfl

/-- Length of a truncated string. -/
theorem take_length (s : String) (n : Nat) :
    (s.take n).length = min n s.length := by
  rw [String.take_eq]
  show (List.take n s.data).length = min n s.length
  rw [List.length_take, String.length_data]

/-- Truncation caps the length. -/
theorem take_length_le (s : String) (n : Nat) : (s.take n).length ≤ n := by
  rw [take_length]
  exact Nat.min_le_left n s.length

/-- Both no-alarm strings are 9 characters long. -/
theorem noAlarm_length (language : String) : (noAlarm language).length = 9 := by
  by_cases h : language = "sv" <;>
    simp [noAlarm, NO_ALARM_SV, NO_ALARM_EN, h] <;> decide

/-- Truncation to 255 characters leaves the no-alarm strings unchanged. -/
theorem noAlarm_take (language : String) :
    (noAlarm language).take 255 = noAlarm language := by
  by_cases h : language = "sv" <;>
    simp [noAlarm, NO_ALARM_SV, NO_ALARM_EN, h] <;> decide

/-- Evaluation of `update` on the matched path: the response is non-empty,
its first entry has a non-empty area list whose first description equals
the configured county. -/
theorem update_matched (county language : String) (s : SensorState)
    (news : Alert) (rest : List Alert) (a0 : Area) (atl : List Area)
    (harea : news.area = a0 :: atl) (hmatch : a0.description = county) :
    update county language (.ok (news :: rest)) s =
      ({ s with
          state := some (news.pushMessage.take 255)
          web := some news.web
          published := some news.published
          area := if atl = [] then none else some a0.description }, none) := by
  obtain ⟨pm, w, pub, ar⟩ := news
  simp only at harea
  subst harea
  cases atl <;> simp [update, hmatch]

/-- Evaluation of `update` on the no-match path: the first entry has a
non-empty area whose first description differs from the county. -/
theorem update_nomatch (county language : String) (s : SensorState)
    (news : Alert) (rest : List Alert) (a0 : Area) (atl : List Area)
    (harea : news.area = a0 :: atl) (hne : a0.description ≠ county) :
    update county language (.ok (news :: rest)) s =
      ({ s with state := some (noAlarm language) }, none) := by
  obtain ⟨pm, w, pub, ar⟩ := news
  simp only at harea
  subst harea
  simp [update, hne]

/-- Evaluation of `update` on the empty-response path. -/
theorem update_empty (county language : String) (s : SensorState) :
    update county language (.ok []) s =
      ({ s with state := some (noAlarm language) }, none) := by
  simp [update]

/-- Evaluation of `update` when the fetch raised: only the module's own
Error class is caught; everything else propagates with no field assigned. -/
theorem update_error (county language : String) (s : SensorState) (e : Exc) :
    update county language (.error e) s =
      match e with
      | .moduleError _ => ({ s with state := some "Unavailable" }, none)
      | _ => (s, some e) := by
  cases e <;> simp [update]

/-- Evaluation of `update` when the first entry's area list is empty: the
IndexError at line 191 escapes and no field is assigned. -/
theorem update_crash (county language : String) (s : SensorState)
    (news : Alert) (rest : List Alert) (hA : news.area = []) :
    update county language (.ok (news :: rest)) s = (s, some Exc.indexError) := by
  obtain ⟨pm, w, pub, ar⟩ := news
  simp only at hA
  subst hA
  simp [update]

/- Claim C1. -/

/-- C1 counterexample: the claim as stated is false. With county
"Värmlands län", a feed whose first entry has primary region
"Stockholms län" and whose second entry matches, the first matching entry
in list order is the second one, yet `update` does not select it: only
`response[0]` is ever examined, so the no-alarm branch is taken. -/
theorem C1_counterexample : ¬ ClaimC1 := by
  intro h
  have h2 := h "Värmlands län" "sv" initState [alertStockholm, alertVarmland]
    alertVarmland (by decide)
  exact absurd h2 (by decide)

/-- C1 amended: `update` only examines the first entry of the list. When
the first entry's primary region equals the configured county
(case-sensitive), it is selected: value is its message truncated to 255
characters, link and published come from it, and region is its primary
description only when the entry's area list has more than one element
(otherwise region is set to None). Later entries are never examined. -/
theorem C1_amended (county language : String) (s : SensorState)
    (news : Alert) (rest : List Alert) (a0 : Area) (atl : List Area)
    (harea : news.area = a0 :: atl) (hmatch : a0.description = county) :
    update county language (.ok (news :: rest)) s =
      ({ s with
          state := some (news.pushMessage.take 255)
          web := some news.web
          published := some news.published
          area := if atl = [] then none else some a0.description }, none) :=
  update_matched county language s news rest a0 atl harea hmatch

/-- C1 witness: the amended theorem applied at the two-area scenario
alert. -/
theorem C1_witness :
    alertVarmlandTwoAreas.area = ⟨"Värmlands län"⟩ :: [⟨"Örebro län"⟩] ∧
    update "Värmlands län" "sv" (.ok [alertVarmlandTwoAreas, alertStockholm])
        initState =
      ({ initState with
          state := some (alertVarmlandTwoAreas.pushMessage.take 255)
          web := some alertVarmlandTwoAreas.web
          published := some alertVarmlandTwoAreas.published
          area := if ([⟨"Örebro län"⟩] : List Area) = [] then none
                  else some (Area.description ⟨"Värmlands län"⟩) }, none) :=
  ⟨rfl, C1_amended "Värmlands län" "sv" initState alertVarmlandTwoAreas
    [alertStockholm] ⟨"Värmlands län"⟩ [⟨"Örebro län"⟩] rfl rfl⟩

/- Claim C2. -/

/-- C2 counterexample: on the spec's scenario input the update does NOT
yield the second (matching) entry's data — the claim as stated is false at
this concrete input. -/
theorem C2_counterexample :
    update "Värmlands län" "sv" (.ok [alertStockholm, alertVarmland])
        initState ≠
      ({ state := some "Test VMA 1", web := some "krisinformation.se",
         published := some "2023-03-29T11:02:11+02:00",
         area := some "Värmlands län" }, none) := by decide

/-- C2 amended: on the scenario input (first entry Stockholms län, second
entry Värmlands län, configured county Värmlands län, language sv) the
update sets value to "Inga larm" and leaves link, published and region at
their prior value None, because only the first entry is examined and it
does not match. -/
theorem C2_amended :
    update "Värmlands län" "sv" (.ok [alertStockholm, alertVarmland])
        initState =
      ({ initState with state := some "Inga larm" }, none) := by decide

/- Claim C3. -/

/-- C3 counterexample: starting from a fully populated prior state and a
non-matching single-entry response, link, published and region keep their
prior values — they are not cleared, so the claim as stated fails. -/
theorem C3_counterexample : ¬ ClaimC3 := by
  intro h
  have h2 := h "Värmlands län" "sv" priorState [alertStockholm]
    (by decide) (by decide)
  exact absurd h2 (by decide)

/-- C3 amended: on a non-empty response whose first entry has a non-empty
area list and in which no entry's primary region equals the configured
county, the update sets value to the no-alarm string for the configured
language and leaves link, published and region unchanged from their prior
values (they are not cleared). -/
theorem C3_amended (county language : String) (s : SensorState)
    (news : Alert) (rest : List Alert)
    (hhead : news.area ≠ [])
    (hnomatch : ∀ e ∈ news :: rest, primaryDesc e ≠ some county) :
    update county language (.ok (news :: rest)) s =
      ({ s with state := some (noAlarm language) }, none) := by
  rcases harea : news.area with _ | ⟨a0, atl⟩
  · exact absurd harea hhead
  · have h0 := hnomatch news (by simp)
    rw [primaryDesc, harea] at h0
    simp at h0
    exact update_nomatch county language s news rest a0 atl harea h0

/-- C3 witness: the amended theorem applied at a concrete populated prior
state. -/
theorem C3_witness :
    alertStockholm.area ≠ [] ∧
    update "Värmlands län" "sv" (.ok [alertStockholm]) priorState =
      ({ priorState with state := some (noAlarm "sv") }, none) :=
  ⟨by decide, C3_amended "Värmlands län" "sv" priorState alertStockholm []
    (by decide) (by decide)⟩

/- Claim C4. -/

/-- C4 counterexample: from a fully populated prior state, the empty-list
path keeps link, published and region — they are not cleared, so the claim
as stated fails. -/
theorem C4_counterexample : ¬ ClaimC4 := by
  intro h
  exact absurd (h "Värmlands län" "sv" priorState) (by decide)

/-- C4 amended: on an empty response the update sets value to the no-alarm
string for the configured language and leaves link, published and region
unchanged from their prior values — the same treatment of the metadata
fields as in the no-match case. -/
theorem C4_amended (county language : String) (s : SensorState) :
    update county language (.ok []) s =
      ({ s with state := some (noAlarm language) }, none) :=
  update_empty county language s

/- Claim C5. -/

/-- C5 counterexample: an exception that is not an instance of the
module's own Error class (for example any exception class of the
underlying HTTP library) is NOT caught — it propagates out of the update
and value is not set to "Unavailable". -/
theorem C5_counterexample : ¬ ClaimC5 := by
  intro h
  exact absurd (h "Värmlands län" "sv" initState (.otherError "boom"))
    (by decide)

/-- C5 amended: the except clause catches only the module's own Error
class; for such an error value becomes exactly "Unavailable" and link,
published and region are unchanged. Any other exception raised by the
client propagates out of the update uncaught, with no field assigned. -/
theorem C5_amended (county language : String) (s : SensorState) (e : Exc) :
    update county language (.error e) s =
      match e with
      | .moduleError _ => ({ s with state := some "Unavailable" }, none)
      | _ => (s, some e) :=
  update_error county language s e

/- Claim C6. -/

/-- C6: on the matched path, a message longer than 255 characters yields a
value that is exactly the first 255 characters of the message (truncation
by `take 255`), and the no-alarm strings are unaffected by truncation. -/
theorem C6_truncation (county language : String) (s : SensorState)
    (news : Alert) (rest : List Alert) (a0 : Area) (atl : List Area)
    (harea : news.area = a0 :: atl) (hmatch : a0.description = county)
    (hlong : 255 < news.pushMessage.length) :
    (update county language (.ok (news :: rest)) s).1.state =
        some (news.pushMessage.take 255) ∧
    (news.pushMessage.take 255).toList = news.pushMessage.toList.take 255 ∧
    (news.pushMessage.take 255).length = 255 ∧
    (noAlarm language).take 255 = noAlarm language := by
  refine ⟨?_, take_toList _ _, ?_, noAlarm_take language⟩
  · rw [update_matched county language s news rest a0 atl harea hmatch]
  · rw [take_length]
    exact Nat.min_eq_left (Nat.le_of_lt hlong)

/-- C6 witness: the truncation theorem applied at the 300-character
alert. -/
theorem C6_witness :
    255 < alertLong.pushMessage.length ∧
    ((update "Kalmar län" "sv" (.ok [alertLong]) initState).1.state =
        some (alertLong.pushMessage.take 255) ∧
     (alertLong.pushMessage.take 255).toList =
        alertLong.pushMessage.toList.take 255 ∧
     (alertLong.pushMessage.take 255).length = 255 ∧
     (noAlarm "sv").take 255 = noAlarm "sv") :=
  ⟨by decide, C6_truncation "Kalmar län" "sv" initState alertLong []
    ⟨"Kalmar län"⟩ [] rfl rfl (by decide)⟩

/- Claim C7. -/

/-- C7: the initial state satisfies the value-length bound, and one run of
the update — on every path: matched alert (truncated to 255), no match or
empty list (9-character no-alarm string), caught fetch error (the
11-character "Unavailable"), or an escaping exception (fields untouched) —
preserves it, so the value field is never longer than 255 characters. -/
theorem C7_value_bound :
    valueInv initState ∧
    ∀ (county language : String) (fetch : Except Exc (List Alert))
      (s : SensorState), valueInv s →
      valueInv (update county language fetch s).1 := by
  refine ⟨fun v hv => by simp [initState] at hv, ?_⟩
  intro county language fetch s hs v hv
  rcases fetch with e | response
  · rcases e with m | _ | m
    · rw [update_error] at hv
      simp at hv
      subst hv
      decide
    · rw [update_error] at hv
      exact hs v hv
    · rw [update_error] at hv
      exact hs v hv
  · rcases response with _ | ⟨news, rest⟩
    · rw [update_empty] at hv
      simp at hv
      subst hv
      rw [noAlarm_length]
      omega
    · rcases harea : news.area with _ | ⟨a0, atl⟩
      · rw [update_crash county language s news rest harea] at hv
        exact hs v hv
      · by_cases hm : a0.description = county
        · rw [update_matched county language s news rest a0 atl harea hm] at hv
          simp at hv
          subst hv
          rw [take_length]
          exact Nat.min_le_left _ _
        · rw [update_nomatch county language s news rest a0 atl harea hm] at hv
          simp at hv
          subst hv
          rw [noAlarm_length]
          omega

/-- C7 witness: the bound applied after one update from the initial state
on the long-message alert. -/
theorem C7_witness :
    valueInv (update "Kalmar län" "sv" (.ok [alertLong]) initState).1 :=
  C7_value_bound.2 "Kalmar län" "sv" (.ok [alertLong]) initState
    (fun v hv => by simp [initState] at hv)

/- Claim C8. -/

/-- C8: in both the empty-list and the no-match cases, the value written
is "Inga larm" exactly when the configured language is "sv" and
"No alarms" for every other language. -/
theorem C8_language_selection (county language : String) (s : SensorState)
    (news : Alert) (rest : List Alert)
    (hhead : news.area ≠ [])
    (hnomatch : ∀ e ∈ news :: rest, primaryDesc e ≠ some county) :
    (update county language (.ok []) s).1.state =
        some (if language = "sv" then "Inga larm" else "No alarms") ∧
    (update county language (.ok (news :: rest)) s).1.state =
        some (if language = "sv" then "Inga larm" else "No alarms") := by
  constructor
  · rw [update_empty]
    simp [noAlarm, NO_ALARM_SV, NO_ALARM_EN]
  · rcases harea : news.area with _ | ⟨a0, atl⟩
    · exact absurd harea hhead
    · have h0 := hnomatch news (by simp)
      rw [primaryDesc, harea] at h0
      simp at h0
      rw [update_nomatch county language s news rest a0 atl harea h0]
      simp [noAlarm, NO_ALARM_SV, NO_ALARM_EN]

/-- C8 witness: the language selection applied with language "en". -/
theorem C8_witness :
    alertStockholm.area ≠ [] ∧
    ((update "Värmlands län" "en" (.ok []) priorState).1.state =
        some (if ("en" : String) = "sv" then "Inga larm" else "No alarms") ∧
     (update "Värmlands län" "en" (.ok [alertStockholm])
        priorState).1.state =
        some (if ("en" : String) = "sv" then "Inga larm" else "No alarms")) :=
  ⟨by decide, C8_language_selection "Värmlands län" "en" priorState
    alertStockholm [] (by decide) (by decide)⟩

/- Claim C9. -/

/-- C9 counterexample: the claim as stated is false. After a matched
update that populates region (entry with two area elements), a subsequent
empty-list update leaves region populated while the value is the no-alarm
string — so a non-null region does not imply the current value is a
matched alert's message. -/
theorem C9_counterexample :
    ((update "Värmlands län" "sv" (.ok [])
        (update "Värmlands län" "sv" (.ok [alertVarmlandTwoAreas])
          initState).1).1.area = some "Värmlands län") ∧
    ((update "Värmlands län" "sv" (.ok [])
        (update "Värmlands län" "sv" (.ok [alertVarmlandTwoAreas])
          initState).1).1.state = some "Inga larm") := by decide

/-- C9 amended: region is assigned only on the matched path. On the
non-selecting paths — empty list, first entry not matching, fetch error
(caught or not) — region keeps its prior value; it is not cleared, so
after such an update a non-null region only witnesses an earlier match. -/
theorem C9_amended (county language : String) (s : SensorState)
    (news : Alert) (rest : List Alert) (e : Exc)
    (hnomatch : primaryDesc news ≠ some county) :
    (update county language (.ok []) s).1.area = s.area ∧
    (update county language (.ok (news :: rest)) s).1.area = s.area ∧
    (update county language (.error e) s).1.area = s.area := by
  refine ⟨by rw [update_empty], ?_, ?_⟩
  · rcases harea : news.area with _ | ⟨a0, atl⟩
    · rw [update_crash county language s news rest harea]
    · have h0 : a0.description ≠ county := by
        rw [primaryDesc, harea] at hnomatch
        simpa using hnomatch
      rw [update_nomatch county language s news rest a0 atl harea h0]
  · rcases e with m | _ | m <;> rw [update_error]

/-- C9 witness: the amended theorem applied at a populated prior state. -/
theorem C9_witness :
    primaryDesc alertStockholm ≠ some "Värmlands län" ∧
    ((update "Värmlands län" "sv" (.ok []) priorState).1.area =
        priorState.area ∧
     (update "Värmlands län" "sv" (.ok [alertStockholm]) priorState).1.area =
        priorState.area ∧
     (update "Värmlands län" "sv" (.error (.otherError "down"))
        priorState).1.area = priorState.area) :=
  ⟨by decide, C9_amended "Värmlands län" "sv" priorState alertStockholm []
    (.otherError "down") (by decide)⟩

/- Claim C10. -/

/-- C10: a non-empty response whose first entry has an empty area list
makes the read of the first area element raise IndexError (line 191); the
except clause does not catch it (IndexError is not the module's Error
class), so it escapes, and no field of the sensor is assigned on that
run. -/
theorem C10_index_error (county language : String) (s : SensorState)
    (news : Alert) (rest : List Alert) (hA : news.area = []) :
    update county language (.ok (news :: rest)) s =
      (s, some Exc.indexError) :=
  update_crash county language s news rest hA

/-- C10 witness: the theorem applied at a concrete empty-area alert. -/
theorem C10_witness :
    alertNoArea.area = [] ∧
    update "Värmlands län" "sv" (.ok [alertNoArea]) priorState =
      (priorState, some Exc.indexError) :=
  ⟨rfl, C10_index_error "Värmlands län" "sv" priorState alertNoArea [] rfl⟩

end Krisinformation
